import Mathlib

/-!
Shallow embedding of the PyMCCRON-gui RCON layer.

Two service variants exist in the source:
* src/src/rcon_service/RCONService.py — the full service with a connected
  flag, logging, and many convenience commands (namespace FullService);
* src/src/rcon/RCONService.py — the minimal passthrough (namespace MinService).

The underlying mcipc Client is external to the repository; it is embedded as
an oracle record of method behaviours (ClientBehavior).  Python exceptions
become Except values; mutations performed before a raise are kept in the
returned state, exactly as in Python.  Each operation also reports the log
records it emits and the calls it makes on the underlying client, so that
claims about logging and about performing no I/O can be stated.

The frame codec of the specification has no counterpart anywhere in the
repository (the wire protocol is delegated to the external library); namespace
Codec models it from the specification text, as marked on its definitions.
-/

namespace PyMCCRON

/-- Behaviour of the external mcipc Client object: each method of the client
that the repository calls is an oracle returning either a value or the text of
a raised exception. -/
structure ClientBehavior where
  connectResult : Except String Unit
  loginResult : String → Except String Unit
  runResult : String → Except String String
  closeResult : Except String Unit
  kickResult : String → String → Except String String
  banResult : String → String → Except String String
  sayResult : String → Except String String
  timeResult : String → String → Except String String

/-- Python-level failures of the service operations.  runtimeNotConnected is
the RuntimeError with message "Not connected. Call connect() first.";
connectionError is the ConnectionError raised by connect; clientError is an
exception propagated from the underlying client.  protocolError is the error
class named by the specification's taxonomy; the source never raises it, and
it is included only so that statements can compare the raised class against
the one the specification names. -/
inductive PyError where
  | runtimeNotConnected
  | connectionError (msg : String)
  | clientError (msg : String)
  | protocolError
deriving DecidableEq

/-- Log records emitted by the full service, kept structurally: each
constructor corresponds to one logger call in the source and carries exactly
the values the source interpolates into the message. -/
inductive LogEvent where
  | connectOk (server : String) (port : Nat)
  | connectFail (server : String) (port : Nat) (err : String)
  | disconnectOk
  | disconnectFail (err : String)
  | commandDebug (cmd resp : String)
  | commandFail (err : String)
deriving DecidableEq

/-- I/O on the underlying client: one constructor per client method invoked
by the service, recording its arguments.  An operation with an empty call
trace performed no I/O. -/
inductive ClientCall where
  | connectSock
  | login (password : String)
  | run (cmd : String)
  | close
  | kick (player reason : String)
  | ban (player reason : String)
  | say (message : String)
  | time (action value : String)
deriving DecidableEq

/-- Values of type Union[str, int, bool] as passed to set_gamerule and
set_time in the source. -/
inductive PyPrim where
  | s (v : String)
  | i (n : Int)
  | b (v : Bool)
deriving DecidableEq

/-- Python str(value) on a Union[str, int, bool] value. -/
def PyPrim.pyStr : PyPrim → String
  | .s v => v
  | .i n => toString n
  | .b v => if v then "True" else "False"

/-- Python str(value).lower() on a Union[str, int, bool] value: lower() is
the identity on the decimal rendering of an int, and maps "True"/"False" to
"true"/"false". -/
def PyPrim.pyStrLower : PyPrim → String
  | .s v => v.toLower
  | .i n => toString n
  | .b v => if v then "true" else "false"

namespace FullService

/-- State of src/src/rcon_service/RCONService.py: the fields set in __init__.
connected embeds the Python attribute that tracks a successful login, and
client is None until connect constructs the mcipc Client. -/
structure RCONState where
  server : String
  port : Nat
  password : String
  client : Option ClientBehavior
  connected : Bool

/-- Outcome of one Python method call on the service: the returned value or
raised exception, the state after the call (mutations before a raise are
kept), the log records emitted, and the calls made on the underlying
client. -/
structure OpOut (α : Type) where
  result : Except PyError α
  state : RCONState
  logs : List LogEvent
  calls : List ClientCall

/-- RCONService.__init__(server, port, password): client is None and the
connected flag is False. -/
def mkService (server : String) (port : Nat) (password : String) : RCONState :=
  { server := server, port := port, password := password,
    client := none, connected := false }

/-- RCONService.connect: constructs the Client, calls its connect() and
login(password); on success sets the connected flag and logs at info level;
on any exception logs at error level, clears the flag and raises
ConnectionError carrying the underlying reason.  The client attribute is
assigned before the socket connect, so it stays set even when the attempt
fails, as in the source. -/
def connect (env : ClientBehavior) (s : RCONState) : OpOut Bool :=
  let s1 : RCONState := { s with client := some env }
  match env.connectResult with
  | .error e =>
      { result := .error (.connectionError ("Failed to connect to RCON server: " ++ e)),
        state := { s1 with connected := false },
        logs := [.connectFail s.server s.port e],
        calls := [.connectSock] }
  | .ok _ =>
      match env.loginResult s.password with
      | .error e =>
          { result := .error (.connectionError ("Failed to connect to RCON server: " ++ e)),
            state := { s1 with connected := false },
            logs := [.connectFail s.server s.port e],
            calls := [.connectSock, .login s.password] }
      | .ok _ =>
          { result := .ok true,
            state := { s1 with connected := true },
            logs := [.connectOk s.server s.port],
            calls := [.connectSock, .login s.password] }

/-- RCONService.disconnect: only when the client is set and the connected
flag holds does it call close(); a raise from close is caught and logged,
and in that case the connected flag is left set because the assignment
after close() is skipped.  In every case the method returns None rather
than raising. -/
def disconnect (s : RCONState) : OpOut Unit :=
  match s.client with
  | some c =>
      if s.connected then
        match c.closeResult with
        | .ok _ =>
            { result := .ok (), state := { s with connected := false },
              logs := [.disconnectOk], calls := [.close] }
        | .error e =>
            { result := .ok (), state := s,
              logs := [.disconnectFail e], calls := [.close] }
      else { result := .ok (), state := s, logs := [], calls := [] }
  | none => { result := .ok (), state := s, logs := [], calls := [] }

/-- RCONService.is_connected: the connected flag and a non-None client. -/
def is_connected (s : RCONState) : Bool :=
  s.connected && s.client.isSome

/-- Guard of RCONService._ensure_connected: not (not self.client or not
self._connected). -/
def ensure_connected (s : RCONState) : Bool :=
  s.client.isSome && s.connected

/-- Result of a method whose _ensure_connected guard fails: RuntimeError,
no state change, no log, no client call. -/
def notConnectedOut {α : Type} (s : RCONState) : OpOut α :=
  { result := .error .runtimeNotConnected, state := s, logs := [], calls := [] }

/-- RCONService.send_command: after the _ensure_connected guard, calls the
client's run(command); logs the command and response at debug level and
returns the response unchanged, or logs the failure at error level and
re-raises the client's exception. -/
def send_command (cmd : String) (s : RCONState) : OpOut String :=
  match s.client with
  | none => notConnectedOut s
  | some c =>
      if s.connected then
        match c.runResult cmd with
        | .ok resp =>
            { result := .ok resp, state := s,
              logs := [.commandDebug cmd resp], calls := [.run cmd] }
        | .error e =>
            { result := .error (.clientError e), state := s,
              logs := [.commandFail e], calls := [.run cmd] }
      else notConnectedOut s

/-- Return-or-propagate of one typed client method: the source's convenience
methods return the client call's value unchanged and let its exception
propagate, with no logging of their own; the call argument records which
client method was invoked with which arguments. -/
def typed_call (s : RCONState) (call : ClientCall) (r : Except String String) :
    OpOut String :=
  match r with
  | .ok resp => { result := .ok resp, state := s, logs := [], calls := [call] }
  | .error e => { result := .error (.clientError e), state := s, logs := [], calls := [call] }

/-- RCONService.kick_player: guard, then delegates to the client's typed
kick method (not to send_command). -/
def kick_player (player reason : String) (s : RCONState) : OpOut String :=
  match s.client with
  | none => notConnectedOut s
  | some c =>
      if s.connected then typed_call s (.kick player reason) (c.kickResult player reason)
      else notConnectedOut s

/-- RCONService.ban_player: guard, then the client's typed ban method. -/
def ban_player (player reason : String) (s : RCONState) : OpOut String :=
  match s.client with
  | none => notConnectedOut s
  | some c =>
      if s.connected then typed_call s (.ban player reason) (c.banResult player reason)
      else notConnectedOut s

/-- RCONService.broadcast_message: guard, then the client's typed say
method. -/
def broadcast_message (message : String) (s : RCONState) : OpOut String :=
  match s.client with
  | none => notConnectedOut s
  | some c =>
      if s.connected then typed_call s (.say message) (c.sayResult message)
      else notConnectedOut s

/-- RCONService.set_time: guard, then the client's typed time method with
action "set" and str(time). -/
def set_time (t : PyPrim) (s : RCONState) : OpOut String :=
  match s.client with
  | none => notConnectedOut s
  | some c =>
      if s.connected then typed_call s (.time "set" t.pyStr) (c.timeResult "set" t.pyStr)
      else notConnectedOut s

/-- Shape of the source's conveniences built on send_command: the
_ensure_connected guard followed by send_command of a formatted string. -/
def guarded_send (t : String) (s : RCONState) : OpOut String :=
  if ensure_connected s then send_command t s else notConnectedOut s

/-- RCONService.save_all: guard, then send_command of "save-all flush" or
"save-all" according to the flush argument. -/
def save_all (flush : Bool) (s : RCONState) : OpOut String :=
  guarded_send (if flush then "save-all flush" else "save-all") s

/-- RCONService.set_gamerule: guard, then send_command of
"gamerule \x7brule\x7d \x7bstr(value).lower()\x7d". -/
def set_gamerule (rule : String) (value : PyPrim) (s : RCONState) : OpOut String :=
  guarded_send ("gamerule " ++ rule ++ " " ++ value.pyStrLower) s

/-- RCONService.get_gamerule: guard, then send_command of
"gamerule \x7brule\x7d". -/
def get_gamerule (rule : String) (s : RCONState) : OpOut String :=
  guarded_send ("gamerule " ++ rule) s

/-- RCONService.execute_as_player: guard, then send_command of
"execute as \x7bplayer\x7d run \x7bcommand\x7d". -/
def execute_as_player (player cmd : String) (s : RCONState) : OpOut String :=
  guarded_send ("execute as " ++ player ++ " run " ++ cmd) s

/-- RCONService.set_spawn_protection: guard, then send_command of
"gamerule spawnRadius \x7bradius\x7d". -/
def set_spawn_protection (radius : Int) (s : RCONState) : OpOut String :=
  guarded_send ("gamerule spawnRadius " ++ toString radius) s

/-- Enumeration of the service operations modelled above, used to quantify
over "every operation" in frame and logging statements. -/
inductive SOp where
  | conn (env : ClientBehavior)
  | disc
  | send (cmd : String)
  | kickP (player reason : String)
  | banP (player reason : String)
  | bcast (message : String)
  | setTime (t : PyPrim)
  | saveAll (flush : Bool)
  | setGamerule (rule : String) (value : PyPrim)
  | getGamerule (rule : String)
  | execAs (player cmd : String)
  | spawnProt (radius : Int)

/-- State after, and log records emitted by, one service operation. -/
def applyOp : SOp → RCONState → RCONState × List LogEvent
  | .conn env, s => ((connect env s).state, (connect env s).logs)
  | .disc, s => ((disconnect s).state, (disconnect s).logs)
  | .send cmd, s => ((send_command cmd s).state, (send_command cmd s).logs)
  | .kickP player reason, s => ((kick_player player reason s).state, (kick_player player reason s).logs)
  | .banP player reason, s => ((ban_player player reason s).state, (ban_player player reason s).logs)
  | .bcast message, s => ((broadcast_message message s).state, (broadcast_message message s).logs)
  | .setTime t, s => ((set_time t s).state, (set_time t s).logs)
  | .saveAll flush, s => ((save_all flush s).state, (save_all flush s).logs)
  | .setGamerule rule value, s => ((set_gamerule rule value s).state, (set_gamerule rule value s).logs)
  | .getGamerule rule, s => ((get_gamerule rule s).state, (get_gamerule rule s).logs)
  | .execAs player cmd, s => ((execute_as_player player cmd s).state, (execute_as_player player cmd s).logs)
  | .spawnProt radius, s => ((set_spawn_protection radius s).state, (set_spawn_protection radius s).logs)

/-- Condition under which an operation's control flow cannot depend on the
stored password: for connect, the underlying login must behave the same for
every password (which branch of login is taken is decided by the external
server, not by this code); every other operation never reads the password at
all. -/
def loginIndifferent : SOp → Prop
  | .conn env => ∀ p q : String, env.loginResult p = env.loginResult q
  | _ => True

end FullService

namespace MinService

/-- Behaviour of the external mcipc Client as used by the minimal variant:
run(command), and list().players. -/
structure MinClient where
  runResult : String → Except String String
  listPlayers : Except String (List String)

/-- State of src/src/rcon/RCONService.py: server, port, password, and client
(None until connect). -/
structure MinState where
  server : String
  port : Nat
  password : String
  client : Option MinClient

/-- Failures of the minimal variant: the RuntimeError raised by
send_command's guard, the AttributeError raised by calling .list() on None,
and exceptions propagated from the underlying client. -/
inductive MinError where
  | runtimeNotConnected
  | attributeErrorNoneList
  | clientError (msg : String)
deriving DecidableEq

/-- RCONService.__init__ of the minimal variant: client is None. -/
def mkService (server : String) (port : Nat) (password : String) : MinState :=
  { server := server, port := port, password := password, client := none }

/-- Minimal RCONService.send_command: if not self.client, raises
RuntimeError("Not connected. Call connect() first.") without touching the
client; otherwise returns client.run(command) unchanged. -/
def send_command (cmd : String) (s : MinState) : Except MinError String :=
  match s.client with
  | none => .error .runtimeNotConnected
  | some c =>
      match c.runResult cmd with
      | .ok r => .ok r
      | .error e => .error (.clientError e)

/-- Minimal RCONService.get_player_list: returns self.client.list().players
with no connection guard, so with client still None it fails with an
AttributeError on None rather than the typed RuntimeError. -/
def get_player_list (s : MinState) : Except MinError (List String) :=
  match s.client with
  | none => .error .attributeErrorNoneList
  | some c =>
      match c.listPlayers with
      | .ok ps => .ok ps
      | .error e => .error (.clientError e)

end MinService

namespace Codec

/-- Modelled from the spec: one byte of the wire format.  The repository
contains no frame codec (the wire protocol is delegated to the external
mcipc library), so the codec of spec sections 3, 4.1 and 6 is modelled from
the specification text. -/
abbrev Byte := Fin 256

/-- Modelled from the spec: the protocol maximum single-packet payload size
(~4096 bytes per fragment). -/
def maxPayload : Nat := 4096

/-- Modelled from the spec: little-endian 4-byte rendering of a natural
number below 2^32. -/
def natToLE32 (m : Nat) : List Byte :=
  [⟨m % 256, by omega⟩, ⟨m / 256 % 256, by omega⟩,
   ⟨m / 65536 % 256, by omega⟩, ⟨m / 16777216 % 256, by omega⟩]

/-- Modelled from the spec: the unsigned value of the first four bytes of a
buffer, read little-endian. -/
def leNat : List Byte → Nat
  | b0 :: b1 :: b2 :: b3 :: _ =>
      b0.val + 256 * b1.val + 65536 * b2.val + 16777216 * b3.val
  | _ => 0

/-- Modelled from the spec: little-endian 4-byte rendering of an int32
field (two's complement). -/
def intToLE32 (n : Int) : List Byte := natToLE32 (n % 4294967296).toNat

/-- Modelled from the spec: reading an unsigned 32-bit value back as a
signed int32. -/
def toSigned32 (u : Nat) : Int :=
  if u < 2147483648 then (u : Int) else (u : Int) - 4294967296

/-- Modelled from the spec: a decoded packet — requestId, packetType (the
wire value, an int32), and the payload bytes. -/
structure Packet where
  requestId : Int
  packetType : Int
  payload : List Byte
deriving DecidableEq

/-- Modelled from the spec: result of encode — the frame bytes, or
EncodingError when the payload exceeds the protocol maximum. -/
inductive EncodeResult where
  | ok (bytes : List Byte)
  | encodingError
deriving DecidableEq

/-- Modelled from the spec: encode(requestId, packetType, payload) builds a
little-endian header, appends the payload plus two null terminator bytes,
and prefixes the computed length (the byte count of the remaining fields);
it fails with EncodingError when the payload exceeds the protocol maximum. -/
def encode (requestId packetType : Int) (payload : List Byte) : EncodeResult :=
  if maxPayload < payload.length then .encodingError
  else
    .ok (natToLE32 (payload.length + 10) ++ intToLE32 requestId ++
         intToLE32 packetType ++ payload ++ [0, 0])

/-- Modelled from the spec: result of tryDecode — a complete Packet with the
number of bytes consumed, Incomplete, or CorruptFrame. -/
inductive DecodeResult where
  | packet (p : Packet) (consumed : Nat)
  | incomplete
  | corruptFrame
deriving DecidableEq

/-- Modelled from the spec: tryDecode reads the 4-byte length prefix; with
fewer than length + 4 bytes buffered it returns Incomplete; a frame too
short to hold the header and terminator, or whose trailing two bytes are not
both zero, is CorruptFrame; otherwise it returns the Packet and the number
of bytes consumed. -/
def tryDecode (buf : List Byte) : DecodeResult :=
  if buf.length < 4 then .incomplete
  else
    let len := leNat (buf.take 4)
    if buf.length < len + 4 then .incomplete
    else if len < 10 then .corruptFrame
    else
      let body := (buf.drop 4).take len
      if body.drop (len - 2) = [0, 0] then
        .packet
          { requestId := toSigned32 (leNat (body.take 4)),
            packetType := toSigned32 (leNat ((body.drop 4).take 4)),
            payload := (body.drop 8).take (len - 10) }
          (len + 4)
      else .corruptFrame

end Codec

/-- Client whose every method succeeds, used to exercise the happy path. -/
def okEnv : ClientBehavior :=
  { connectResult := .ok (), loginResult := fun _ => .ok (),
    runResult := fun cmd => .ok ("ran " ++ cmd), closeResult := .ok (),
    kickResult := fun _ _ => .ok "kicked", banResult := fun _ _ => .ok "banned",
    sayResult := fun _ => .ok "said", timeResult := fun _ _ => .ok "timed" }

/-- Client that connects and authenticates but whose close() raises. -/
def badCloseEnv : ClientBehavior :=
  { connectResult := .ok (), loginResult := fun _ => .ok (),
    runResult := fun _ => .ok "", closeResult := .error "socket already closed",
    kickResult := fun _ _ => .ok "", banResult := fun _ _ => .ok "",
    sayResult := fun _ => .ok "", timeResult := fun _ _ => .ok "" }

/-- Client on which run and the typed kick method return distinct texts,
separating the two code paths of the conveniences. -/
def cexEnv : ClientBehavior :=
  { connectResult := .ok (), loginResult := fun _ => .ok (),
    runResult := fun _ => .ok "RUN", closeResult := .ok (),
    kickResult := fun _ _ => .ok "KICK", banResult := fun _ _ => .ok "BAN",
    sayResult := fun _ => .ok "SAY", timeResult := fun _ _ => .ok "TIME" }

/-- Service state reached by a successful connect against cexEnv. -/
def cexState : FullService.RCONState :=
  (FullService.connect cexEnv (FullService.mkService "h" 25575 "p")).state

/-- Service state reached by a successful connect against badCloseEnv. -/
def badCloseState : FullService.RCONState :=
  (FullService.connect badCloseEnv (FullService.mkService "h" 25575 "p")).state

namespace FullService

lemma send_command_of_not_connected (cmd : String) (s : RCONState)
    (h : is_connected s = false) : send_command cmd s = notConnectedOut s := by
  obtain ⟨sv, pt, pwd, cl, cn⟩ := s
  cases cl <;> cases cn <;>
    simp_all [send_command, is_connected, notConnectedOut]

lemma send_command_state (cmd : String) (s : RCONState) :
    (send_command cmd s).state = s := by
  obtain ⟨sv, pt, pwd, cl, cn⟩ := s
  cases cl with
  | none => rfl
  | some c =>
      cases cn with
      | false => rfl
      | true =>
          simp only [send_command]
          rcases c.runResult cmd with e | r <;> rfl

lemma typed_call_state (s : RCONState) (call : ClientCall) (r : Except String String) :
    (typed_call s call r).state = s := by
  cases r <;> rfl

lemma typed_call_logs (s : RCONState) (call : ClientCall) (r : Except String String) :
    (typed_call s call r).logs = [] := by
  cases r <;> rfl

lemma typed_call_calls (s : RCONState) (call : ClientCall) (r : Except String String) :
    (typed_call s call r).calls = [call] := by
  cases r <;> rfl

lemma send_command_logs_password (cmd : String) (s : RCONState) (pw : String) :
    (send_command cmd { s with password := pw }).logs = (send_command cmd s).logs := by
  obtain ⟨sv, pt, pwd, cl, cn⟩ := s
  cases cl with
  | none => rfl
  | some c =>
      cases cn with
      | false => rfl
      | true =>
          simp only [send_command]
          rcases c.runResult cmd with e | r <;> rfl

lemma guarded_send_state (t : String) (s : RCONState) :
    (guarded_send t s).state = s := by
  unfold guarded_send
  split
  · exact send_command_state t s
  · rfl

lemma guarded_send_logs_password (t : String) (s : RCONState) (pw : String) :
    (guarded_send t { s with password := pw }).logs = (guarded_send t s).logs := by
  unfold guarded_send
  have he : ensure_connected { s with password := pw } = ensure_connected s := rfl
  rw [he]
  split
  · exact send_command_logs_password t s pw
  · rfl

lemma kick_player_state (player reason : String) (s : RCONState) :
    (kick_player player reason s).state = s := by
  obtain ⟨sv, pt, pwd, cl, cn⟩ := s
  cases cl with
  | none => rfl
  | some c =>
      cases cn with
      | false => rfl
      | true => exact typed_call_state _ _ _

lemma kick_player_logs (player reason : String) (s : RCONState) :
    (kick_player player reason s).logs = [] := by
  obtain ⟨sv, pt, pwd, cl, cn⟩ := s
  cases cl with
  | none => rfl
  | some c =>
      cases cn with
      | false => rfl
      | true => exact typed_call_logs _ _ _

lemma ban_player_state (player reason : String) (s : RCONState) :
    (ban_player player reason s).state = s := by
  obtain ⟨sv, pt, pwd, cl, cn⟩ := s
  cases cl with
  | none => rfl
  | some c =>
      cases cn with
      | false => rfl
      | true => exact typed_call_state _ _ _

lemma ban_player_logs (player reason : String) (s : RCONState) :
    (ban_player player reason s).logs = [] := by
  obtain ⟨sv, pt, pwd, cl, cn⟩ := s
  cases cl with
  | none => rfl
  | some c =>
      cases cn with
      | false => rfl
      | true => exact typed_call_logs _ _ _

lemma broadcast_message_state (message : String) (s : RCONState) :
    (broadcast_message message s).state = s := by
  obtain ⟨sv, pt, pwd, cl, cn⟩ := s
  cases cl with
  | none => rfl
  | some c =>
      cases cn with
      | false => rfl
      | true => exact typed_call_state _ _ _

lemma broadcast_message_logs (message : String) (s : RCONState) :
    (broadcast_message message s).logs = [] := by
  obtain ⟨sv, pt, pwd, cl, cn⟩ := s
  cases cl with
  | none => rfl
  | some c =>
      cases cn with
      | false => rfl
      | true => exact typed_call_logs _ _ _

lemma set_time_state (t : PyPrim) (s : RCONState) :
    (set_time t s).state = s := by
  obtain ⟨sv, pt, pwd, cl, cn⟩ := s
  cases cl with
  | none => rfl
  | some c =>
      cases cn with
      | false => rfl
      | true => exact typed_call_state _ _ _

lemma set_time_logs (t : PyPrim) (s : RCONState) :
    (set_time t s).logs = [] := by
  obtain ⟨sv, pt, pwd, cl, cn⟩ := s
  cases cl with
  | none => rfl
  | some c =>
      cases cn with
      | false => rfl
      | true => exact typed_call_logs _ _ _

end FullService

namespace Codec

lemma leNat_natToLE32 (m : Nat) (h : m < 4294967296) :
    leNat (natToLE32 m) = m := by
  simp only [natToLE32, leNat]
  omega

lemma toSigned32_leNat_intToLE32 (n : Int) (h1 : -2147483648 ≤ n)
    (h2 : n < 2147483648) : toSigned32 (leNat (intToLE32 n)) = n := by
  have hm : (n % 4294967296).toNat < 4294967296 := by omega
  rw [intToLE32, leNat_natToLE32 _ hm]
  unfold toSigned32
  split <;> omega

lemma tryDecode_frame (A B C pl : List Byte)
    (hA : A.length = 4) (hB : B.length = 4) (hC : C.length = 4)
    (hlen : leNat A = pl.length + 10) :
    tryDecode (A ++ (B ++ (C ++ (pl ++ [0, 0]))))
      = .packet
          { requestId := toSigned32 (leNat B),
            packetType := toSigned32 (leNat C),
            payload := pl }
          (pl.length + 14) := by
  have hbuf_len : (A ++ (B ++ (C ++ (pl ++ [0, 0])))).length = pl.length + 14 := by
    simp [List.length_append, hA, hB, hC]
    omega
  have htake : (A ++ (B ++ (C ++ (pl ++ [0, 0])))).take 4 = A := List.take_left' hA
  have hdrop : (A ++ (B ++ (C ++ (pl ++ [0, 0])))).drop 4 = B ++ (C ++ (pl ++ [0, 0])) :=
    List.drop_left' hA
  have hbody : (B ++ (C ++ (pl ++ [0, 0]))).take (pl.length + 10)
      = B ++ (C ++ (pl ++ [0, 0])) := by
    refine List.take_of_length_le ?_
    simp [List.length_append, hB, hC]
    omega
  simp only [tryDecode, htake, hdrop, hbuf_len, hlen, hbody]
  rw [if_neg (by omega), if_neg (by omega), if_neg (by omega)]
  have hterm : (B ++ (C ++ (pl ++ [0, 0]))).drop (pl.length + 10 - 2) = [0, 0] := by
    have hassoc : B ++ (C ++ (pl ++ [0, 0])) = ((B ++ C) ++ pl) ++ [0, 0] := by
      simp [List.append_assoc]
    rw [hassoc]
    refine List.drop_left' ?_
    simp [List.length_append, hB, hC]
    omega
  rw [if_pos hterm]
  have hreq : (B ++ (C ++ (pl ++ [0, 0]))).take 4 = B := List.take_left' hB
  have hpt : ((B ++ (C ++ (pl ++ [0, 0]))).drop 4).take 4 = C := by
    rw [List.drop_left' hB]
    exact List.take_left' hC
  have hpay : ((B ++ (C ++ (pl ++ [0, 0]))).drop 8).take (pl.length + 10 - 10) = pl := by
    have hassoc : B ++ (C ++ (pl ++ [0, 0])) = (B ++ C) ++ (pl ++ [0, 0]) :=
      (List.append_assoc B C (pl ++ [0, 0])).symm
    rw [hassoc, List.drop_left' (by simp [List.length_append, hB, hC])]
    rw [show pl.length + 10 - 10 = pl.length from by omega]
    exact List.take_left' rfl
  rw [hreq, hpt, hpay, show pl.length + 10 + 4 = pl.length + 14 from by omega]

end Codec

/-- C1 counterexample: on the freshly constructed, never-connected service,
send_command raises the RuntimeError of _ensure_connected, which is not the
ProtocolError class named by the claim. -/
theorem C1_counterexample :
    (FullService.send_command "list" (FullService.mkService "127.0.0.1" 25575 "pw")).result
      = .error .runtimeNotConnected ∧
    (FullService.send_command "list" (FullService.mkService "127.0.0.1" 25575 "pw")).result
      ≠ .error .protocolError := by
  refine ⟨rfl, ?_⟩
  intro h
  simp only [FullService.send_command, FullService.mkService,
    FullService.notConnectedOut] at h
  exact absurd (Except.error.inj h) (by simp)

/-- C1 (amended): for every command string, send_command on a service that is
not connected (initially, or after a failed connect, since is_connected is
then false) fails with the RuntimeError of _ensure_connected and performs no
I/O: no call is made on the underlying client, nothing is logged, and the
state is unchanged. -/
theorem C1_not_connected_no_io (cmd : String) (s : FullService.RCONState)
    (h : FullService.is_connected s = false) :
    (FullService.send_command cmd s).result = .error .runtimeNotConnected ∧
    (FullService.send_command cmd s).calls = [] ∧
    (FullService.send_command cmd s).logs = [] ∧
    (FullService.send_command cmd s).state = s := by
  rw [FullService.send_command_of_not_connected cmd s h]
  exact ⟨rfl, rfl, rfl, rfl⟩

/-- C1 witness: the general theorem applied to the freshly constructed
service and the command "list". -/
theorem C1_witness :
    (FullService.send_command "list" (FullService.mkService "h" 1 "p")).result
      = .error .runtimeNotConnected ∧
    (FullService.send_command "list" (FullService.mkService "h" 1 "p")).calls = [] ∧
    (FullService.send_command "list" (FullService.mkService "h" 1 "p")).logs = [] ∧
    (FullService.send_command "list" (FullService.mkService "h" 1 "p")).state
      = FullService.mkService "h" 1 "p" :=
  C1_not_connected_no_io "list" (FullService.mkService "h" 1 "p") rfl

/-- C2: for every client behaviour and every starting state, connect either
returns True with the service connected, or raises a ConnectionError whose
message carries the underlying reason and leaves is_connected false. -/
theorem C2_connect_atomic (env : ClientBehavior) (s : FullService.RCONState) :
    ((FullService.connect env s).result = .ok true ∧
      FullService.is_connected (FullService.connect env s).state = true) ∨
    (∃ e : String,
      (FullService.connect env s).result
        = .error (.connectionError ("Failed to connect to RCON server: " ++ e)) ∧
      FullService.is_connected (FullService.connect env s).state = false) := by
  simp only [FullService.connect]
  rcases env.connectResult with e | u
  · exact Or.inr ⟨e, rfl, rfl⟩
  · rcases henv : env.loginResult s.password with e | u2
    · exact Or.inr ⟨e, rfl, rfl⟩
    · exact Or.inl ⟨rfl, rfl⟩

/-- C3: disconnect never raises, running it twice ends in the same state as
running it once, and on a service that is not connected it is a strict
no-op. -/
theorem C3_disconnect_idempotent (s : FullService.RCONState) :
    (FullService.disconnect s).result = .ok () ∧
    (FullService.disconnect (FullService.disconnect s).state).state
      = (FullService.disconnect s).state ∧
    (FullService.is_connected s = false → (FullService.disconnect s).state = s) := by
  obtain ⟨sv, pt, pwd, cl, cn⟩ := s
  cases cl with
  | none => exact ⟨rfl, rfl, fun _ => rfl⟩
  | some c =>
      cases cn with
      | false => exact ⟨rfl, rfl, fun _ => rfl⟩
      | true =>
          refine ⟨?_, ?_, ?_⟩
          · simp only [FullService.disconnect]
            rcases c.closeResult with e | u <;> rfl
          · simp only [FullService.disconnect]
            rcases h : c.closeResult with e | u <;>
              simp [FullService.disconnect, h]
          · intro h
            simp [FullService.is_connected] at h

/-- C3 witness: the no-op branch of the theorem at the freshly constructed
service, on which is_connected is false. -/
theorem C3_witness :
    (FullService.disconnect (FullService.mkService "h" 1 "p")).state
      = FullService.mkService "h" 1 "p" :=
  (C3_disconnect_idempotent (FullService.mkService "h" 1 "p")).2.2 rfl

/-- C4: on a connected service, send_command delegates to the client's run —
the call trace is exactly that one run call — and returns the response text
unchanged, leaving the state unchanged. -/
theorem C4_send_command_delegates (cmd resp : String) (c : ClientBehavior)
    (s : FullService.RCONState) (hcl : s.client = some c) (hcn : s.connected = true)
    (hrun : c.runResult cmd = .ok resp) :
    (FullService.send_command cmd s).result = .ok resp ∧
    (FullService.send_command cmd s).calls = [.run cmd] ∧
    (FullService.send_command cmd s).state = s := by
  obtain ⟨sv, pt, pwd, cl, cn⟩ := s
  cases hcl
  cases hcn
  simp only [FullService.send_command]
  rw [hrun]
  exact ⟨rfl, rfl, rfl⟩

/-- C4 witness: the theorem applied to the state reached by connecting
against okEnv, whose run echoes the command. -/
theorem C4_witness :
    (FullService.send_command "time set day"
        (FullService.connect okEnv (FullService.mkService "h" 1 "p")).state).result
      = .ok "ran time set day" ∧
    (FullService.send_command "time set day"
        (FullService.connect okEnv (FullService.mkService "h" 1 "p")).state).calls
      = [.run "time set day"] ∧
    (FullService.send_command "time set day"
        (FullService.connect okEnv (FullService.mkService "h" 1 "p")).state).state
      = (FullService.connect okEnv (FullService.mkService "h" 1 "p")).state :=
  C4_send_command_delegates "time set day" "ran time set day" okEnv
    (FullService.connect okEnv (FullService.mkService "h" 1 "p")).state rfl rfl rfl

/-- C5 counterexample: after the sequence "successful connect, then
disconnect" against a client whose close() raises, is_connected still
returns true, although the claim requires it to return false after
disconnect in every sequence. -/
theorem C5_counterexample :
    (FullService.connect badCloseEnv (FullService.mkService "h" 25575 "p")).result
      = .ok true ∧
    FullService.is_connected
      (FullService.disconnect badCloseState).state = true := ⟨rfl, rfl⟩

/-- C5 (amended): is_connected is false on the freshly constructed service,
true after a successful connect, false after a failed connect, and false
after a disconnect whose underlying close does not raise (on an already
disconnected service, or when closeResult succeeds); the remaining case — a
connected service whose close raises — is the one the counterexample
exhibits. -/
theorem C5_is_connected_tracks_state (a : String) (p : Nat) (pw : String)
    (env : ClientBehavior) (s : FullService.RCONState) :
    FullService.is_connected (FullService.mkService a p pw) = false ∧
    ((FullService.connect env s).result = .ok true →
      FullService.is_connected (FullService.connect env s).state = true) ∧
    ((∃ e, (FullService.connect env s).result = .error e) →
      FullService.is_connected (FullService.connect env s).state = false) ∧
    ((FullService.is_connected s = false ∨
        (∃ c, s.client = some c ∧ c.closeResult = .ok ())) →
      FullService.is_connected (FullService.disconnect s).state = false) := by
  refine ⟨rfl, ?_, ?_, ?_⟩
  · simp only [FullService.connect]
    rcases hc : env.connectResult with e | u
    · intro h
      exact absurd h (by simp)
    · rcases henv : env.loginResult s.password with e | u2
      · intro h
        exact absurd h (by simp)
      · intro _
        rfl
  · simp only [FullService.connect]
    rcases hc : env.connectResult with e | u
    · intro _
      rfl
    · rcases henv : env.loginResult s.password with e | u2
      · intro _
        rfl
      · rintro ⟨e3, h⟩
        exact absurd h (by simp)
  · rintro (h | ⟨c, hcl, hcls⟩)
    · obtain ⟨sv, pt, pwd, cl, cn⟩ := s
      cases cl <;> cases cn <;>
        simp_all [FullService.is_connected, FullService.disconnect]
    · obtain ⟨sv, pt, pwd, cl, cn⟩ := s
      cases hcl
      cases cn with
      | false => simp [FullService.disconnect, FullService.is_connected]
      | true => simp [FullService.disconnect, hcls, FullService.is_connected]

/-- C5 witness: the successful-connect branch of the theorem at okEnv, and
the good-close disconnect branch after it. -/
theorem C5_witness :
    FullService.is_connected
      (FullService.connect okEnv (FullService.mkService "h" 1 "p")).state = true ∧
    FullService.is_connected
      (FullService.disconnect
        (FullService.connect okEnv (FullService.mkService "h" 1 "p")).state).state
      = false :=
  ⟨(C5_is_connected_tracks_state "h" 1 "p" okEnv
      (FullService.mkService "h" 1 "p")).2.1 rfl,
   (C5_is_connected_tracks_state "h" 1 "p" okEnv
      (FullService.connect okEnv (FullService.mkService "h" 1 "p")).state).2.2.2
     (Or.inr ⟨okEnv, rfl, rfl⟩)⟩

/-- C9: on a connected service whose client close() raises, disconnect
returns normally (no exception), logs the failure, leaves the state
unchanged — so the connected flag is not cleared and is_connected still
returns true. -/
theorem C9_disconnect_close_failure (s : FullService.RCONState) (c : ClientBehavior)
    (e : String) (hcl : s.client = some c) (hcn : s.connected = true)
    (hcls : c.closeResult = .error e) :
    (FullService.disconnect s).result = .ok () ∧
    (FullService.disconnect s).state = s ∧
    (FullService.disconnect s).logs = [.disconnectFail e] ∧
    FullService.is_connected (FullService.disconnect s).state = true := by
  obtain ⟨sv, pt, pwd, cl, cn⟩ := s
  cases hcl
  cases hcn
  simp only [FullService.disconnect, hcls]
  exact ⟨rfl, rfl, rfl, rfl⟩

/-- C9 witness: the theorem applied to the state reached by connecting
against badCloseEnv, whose close raises. -/
theorem C9_witness :
    (FullService.disconnect badCloseState).result = .ok () ∧
    (FullService.disconnect badCloseState).state = badCloseState ∧
    (FullService.disconnect badCloseState).logs
      = [.disconnectFail "socket already closed"] ∧
    FullService.is_connected (FullService.disconnect badCloseState).state = true :=
  C9_disconnect_close_failure badCloseState badCloseEnv "socket already closed"
    rfl rfl rfl

/-- C10: in the minimal service variant, with the client still None,
get_player_list fails with the unguarded AttributeError on None while
send_command fails with the typed RuntimeError of its guard, and the two
failures differ. -/
theorem C10_min_unguarded_list (s : MinService.MinState) (cmd : String)
    (h : s.client = none) :
    MinService.get_player_list s = .error .attributeErrorNoneList ∧
    MinService.send_command cmd s = .error .runtimeNotConnected ∧
    MinService.MinError.attributeErrorNoneList ≠ MinService.MinError.runtimeNotConnected := by
  refine ⟨?_, ?_, by simp⟩
  · simp [MinService.get_player_list, h]
  · simp [MinService.send_command, h]

/-- C6 counterexample: on the connected state cexState, kick_player returns
the typed kick method's text while send_command returns run's text for every
command string, so kick_player's result is not run applied to any command
string formatted from its arguments — it bypasses run entirely. -/
theorem C6_counterexample :
    (FullService.kick_player "Steve" "grief" cexState).result = .ok "KICK" ∧
    ∀ cmd : String,
      (FullService.send_command cmd cexState).result = .ok "RUN" ∧
      (FullService.kick_player "Steve" "grief" cexState).result
        ≠ (FullService.send_command cmd cexState).result := by
  refine ⟨rfl, fun cmd => ⟨rfl, ?_⟩⟩
  intro h
  have h1 : (FullService.kick_player "Steve" "grief" cexState).result = .ok "KICK" := rfl
  have h2 : (FullService.send_command cmd cexState).result = .ok "RUN" := rfl
  rw [h1, h2] at h
  simp at h

/-- C6 (amended): the conveniences built on send_command (save_all,
set_gamerule, get_gamerule, execute_as_player, set_spawn_protection, and the
like) are pure text-formatting wrappers over run — on a connected service
each equals send_command of a string formatted from its arguments; the
conveniences kick_player, ban_player, broadcast_message and set_time instead
delegate to the corresponding typed method of the underlying client, not to
run. -/
theorem C6_wrappers (s : FullService.RCONState) (flush : Bool)
    (rule : String) (value : PyPrim) (player reason cmd : String) (radius : Int)
    (h : FullService.ensure_connected s = true) :
    FullService.save_all flush s
      = FullService.send_command (if flush then "save-all flush" else "save-all") s ∧
    FullService.set_gamerule rule value s
      = FullService.send_command ("gamerule " ++ rule ++ " " ++ value.pyStrLower) s ∧
    FullService.get_gamerule rule s
      = FullService.send_command ("gamerule " ++ rule) s ∧
    FullService.execute_as_player player cmd s
      = FullService.send_command ("execute as " ++ player ++ " run " ++ cmd) s ∧
    FullService.set_spawn_protection radius s
      = FullService.send_command ("gamerule spawnRadius " ++ toString radius) s ∧
    (FullService.kick_player player reason s).calls = [.kick player reason] ∧
    (FullService.ban_player player reason s).calls = [.ban player reason] ∧
    (FullService.broadcast_message cmd s).calls = [.say cmd] ∧
    (FullService.set_time value s).calls = [.time "set" value.pyStr] := by
  have hg : ∀ t : String, FullService.guarded_send t s = FullService.send_command t s := by
    intro t
    simp [FullService.guarded_send, h]
  obtain ⟨sv, pt, pwd, cl, cn⟩ := s
  cases cl with
  | none => simp [FullService.ensure_connected] at h
  | some c =>
      cases cn with
      | false => simp [FullService.ensure_connected] at h
      | true =>
          refine ⟨hg _, hg _, hg _, hg _, hg _, ?_, ?_, ?_, ?_⟩
          · exact FullService.typed_call_calls _ _ _
          · exact FullService.typed_call_calls _ _ _
          · exact FullService.typed_call_calls _ _ _
          · exact FullService.typed_call_calls _ _ _

/-- C6 witness: the amended theorem applied on cexState with concrete
arguments. -/
theorem C6_witness :
    FullService.save_all true cexState
      = FullService.send_command (if true then "save-all flush" else "save-all") cexState ∧
    FullService.set_gamerule "doDaylightCycle" (.b true) cexState
      = FullService.send_command
          ("gamerule " ++ "doDaylightCycle" ++ " " ++ (PyPrim.b true).pyStrLower) cexState ∧
    FullService.get_gamerule "doDaylightCycle" cexState
      = FullService.send_command ("gamerule " ++ "doDaylightCycle") cexState ∧
    FullService.execute_as_player "Steve" "say hi" cexState
      = FullService.send_command
          ("execute as " ++ "Steve" ++ " run " ++ "say hi") cexState ∧
    FullService.set_spawn_protection 16 cexState
      = FullService.send_command
          ("gamerule spawnRadius " ++ toString (16 : Int)) cexState ∧
    (FullService.kick_player "Steve" "grief" cexState).calls = [.kick "Steve" "grief"] ∧
    (FullService.ban_player "Steve" "grief" cexState).calls = [.ban "Steve" "grief"] ∧
    (FullService.broadcast_message "say hi" cexState).calls = [.say "say hi"] ∧
    (FullService.set_time (PyPrim.b true) cexState).calls
      = [.time "set" (PyPrim.b true).pyStr] :=
  C6_wrappers cexState true "doDaylightCycle" (.b true) "Steve" "grief" "say hi" 16 rfl

/-- C7: every modelled service operation leaves the server, port and
password fields unchanged; and the log records an operation emits do not
depend on the stored password — provided (for connect only) that the
underlying login treats every password alike, since which branch the server
takes is the only channel through which the password can reach the log, and
then only via the library's own error text, never verbatim from the
field. -/
theorem C7_credentials_immutable (op : FullService.SOp) (s : FullService.RCONState)
    (pw : String) (h : FullService.loginIndifferent op) :
    ((FullService.applyOp op s).1.server = s.server ∧
     (FullService.applyOp op s).1.port = s.port ∧
     (FullService.applyOp op s).1.password = s.password) ∧
    (FullService.applyOp op { s with password := pw }).2
      = (FullService.applyOp op s).2 := by
  obtain ⟨sv, pt, pwd, cl, cn⟩ := s
  cases op with
  | conn env =>
      have hl : ∀ p q : String, env.loginResult p = env.loginResult q := h
      refine ⟨?_, ?_⟩
      · simp only [FullService.applyOp, FullService.connect]
        rcases env.connectResult with e | u
        · exact ⟨rfl, rfl, rfl⟩
        · rcases env.loginResult pwd with e | u2 <;> exact ⟨rfl, rfl, rfl⟩
      · simp only [FullService.applyOp, FullService.connect]
        rcases env.connectResult with e | u
        · rfl
        · rw [hl pw pwd]
          rcases env.loginResult pwd with e | u2 <;> rfl
  | disc =>
      refine ⟨?_, ?_⟩ <;> simp only [FullService.applyOp]
      · cases cl with
        | none => exact ⟨rfl, rfl, rfl⟩
        | some c =>
            cases cn with
            | false => exact ⟨rfl, rfl, rfl⟩
            | true =>
                simp only [FullService.disconnect]
                rcases c.closeResult with e | u <;> exact ⟨rfl, rfl, rfl⟩
      · cases cl with
        | none => rfl
        | some c =>
            cases cn with
            | false => rfl
            | true =>
                simp only [FullService.disconnect]
                rcases c.closeResult with e | u <;> rfl
  | send cmd =>
      refine ⟨?_, ?_⟩
      · simp [FullService.applyOp, FullService.send_command_state]
      · exact FullService.send_command_logs_password cmd ⟨sv, pt, pwd, cl, cn⟩ pw
  | kickP player reason =>
      refine ⟨?_, ?_⟩
      · simp [FullService.applyOp, FullService.kick_player_state]
      · simp only [FullService.applyOp, FullService.kick_player_logs]
  | banP player reason =>
      refine ⟨?_, ?_⟩
      · simp [FullService.applyOp, FullService.ban_player_state]
      · simp only [FullService.applyOp, FullService.ban_player_logs]
  | bcast message =>
      refine ⟨?_, ?_⟩
      · simp [FullService.applyOp, FullService.broadcast_message_state]
      · simp only [FullService.applyOp, FullService.broadcast_message_logs]
  | setTime t =>
      refine ⟨?_, ?_⟩
      · simp [FullService.applyOp, FullService.set_time_state]
      · simp only [FullService.applyOp, FullService.set_time_logs]
  | saveAll flush =>
      refine ⟨?_, ?_⟩ <;> simp only [FullService.applyOp, FullService.save_all]
      · simp [FullService.guarded_send_state]
      · exact FullService.guarded_send_logs_password _ ⟨sv, pt, pwd, cl, cn⟩ pw
  | setGamerule rule value =>
      refine ⟨?_, ?_⟩ <;> simp only [FullService.applyOp, FullService.set_gamerule]
      · simp [FullService.guarded_send_state]
      · exact FullService.guarded_send_logs_password _ ⟨sv, pt, pwd, cl, cn⟩ pw
  | getGamerule rule =>
      refine ⟨?_, ?_⟩ <;> simp only [FullService.applyOp, FullService.get_gamerule]
      · simp [FullService.guarded_send_state]
      · exact FullService.guarded_send_logs_password _ ⟨sv, pt, pwd, cl, cn⟩ pw
  | execAs player cmd =>
      refine ⟨?_, ?_⟩ <;> simp only [FullService.applyOp, FullService.execute_as_player]
      · simp [FullService.guarded_send_state]
      · exact FullService.guarded_send_logs_password _ ⟨sv, pt, pwd, cl, cn⟩ pw
  | spawnProt radius =>
      refine ⟨?_, ?_⟩ <;> simp only [FullService.applyOp, FullService.set_spawn_protection]
      · simp [FullService.guarded_send_state]
      · exact FullService.guarded_send_logs_password _ ⟨sv, pt, pwd, cl, cn⟩ pw

/-- C7 witness: the theorem applied to the disconnect operation on the
connected badCloseState, with the password replaced by "x". -/
theorem C7_witness :
    ((FullService.applyOp .disc badCloseState).1.server = badCloseState.server ∧
     (FullService.applyOp .disc badCloseState).1.port = badCloseState.port ∧
     (FullService.applyOp .disc badCloseState).1.password = badCloseState.password) ∧
    (FullService.applyOp .disc { badCloseState with password := "x" }).2
      = (FullService.applyOp .disc badCloseState).2 :=
  C7_credentials_immutable .disc badCloseState "x" True.intro

/-- C8: frame-codec round-trip law — for every int32 requestId and
packetType and every payload of at most the protocol maximum, encode
succeeds and tryDecode of the encoding returns the original packet,
consuming the whole frame. -/
theorem C8_roundtrip (r t : Int) (pl : List Codec.Byte)
    (hr1 : -2147483648 ≤ r) (hr2 : r < 2147483648)
    (ht1 : -2147483648 ≤ t) (ht2 : t < 2147483648)
    (hp : pl.length ≤ Codec.maxPayload) :
    Codec.encode r t pl
      = .ok (Codec.natToLE32 (pl.length + 10) ++ Codec.intToLE32 r ++
             Codec.intToLE32 t ++ pl ++ [0, 0]) ∧
    Codec.tryDecode
        (Codec.natToLE32 (pl.length + 10) ++ Codec.intToLE32 r ++
         Codec.intToLE32 t ++ pl ++ [0, 0])
      = .packet { requestId := r, packetType := t, payload := pl }
          (pl.length + 14) := by
  have hp' : pl.length ≤ 4096 := hp
  constructor
  · unfold Codec.encode
    rw [if_neg (by simp only [Codec.maxPayload]; omega)]
  · have h1 := Codec.tryDecode_frame (Codec.natToLE32 (pl.length + 10))
      (Codec.intToLE32 r) (Codec.intToLE32 t) pl rfl rfl rfl
      (Codec.leNat_natToLE32 _ (by omega))
    rw [Codec.toSigned32_leNat_intToLE32 r hr1 hr2,
        Codec.toSigned32_leNat_intToLE32 t ht1 ht2] at h1
    simpa only [List.append_assoc] using h1

/-- C8 witness: the round-trip law at requestId 7, packetType 2 and the
two-byte payload "hi". -/
theorem C8_witness :
    Codec.encode 7 2 [104, 105]
      = .ok (Codec.natToLE32 (([104, 105] : List Codec.Byte).length + 10) ++
             Codec.intToLE32 7 ++ Codec.intToLE32 2 ++ [104, 105] ++ [0, 0]) ∧
    Codec.tryDecode
        (Codec.natToLE32 (([104, 105] : List Codec.Byte).length + 10) ++
         Codec.intToLE32 7 ++ Codec.intToLE32 2 ++ [104, 105] ++ [0, 0])
      = .packet { requestId := 7, packetType := 2, payload := [104, 105] }
          (([104, 105] : List Codec.Byte).length + 14) :=
  C8_roundtrip 7 2 [104, 105] (by decide) (by decide) (by decide) (by decide)
    (by decide)

/-- C10 witness: the theorem applied to the freshly constructed minimal
service and the command "list". -/
theorem C10_witness :
    MinService.get_player_list (MinService.mkService "127.0.0.1" 25575 "pw")
      = .error .attributeErrorNoneList ∧
    MinService.send_command "list" (MinService.mkService "127.0.0.1" 25575 "pw")
      = .error .runtimeNotConnected ∧
    MinService.MinError.attributeErrorNoneList ≠ MinService.MinError.runtimeNotConnected :=
  C10_min_unguarded_list (MinService.mkService "127.0.0.1" 25575 "pw") "list" rfl

end PyMCCRON
